import Mathlib

/-!
Shallow embedding of the ReSnake simulation core (entities, movement,
collision, input, engine state machine and placement helpers), translated
from the TypeScript sources, together with theorems settling the frozen
claims about it.  Grid coordinates are embedded as integers; time deltas
as natural-number milliseconds.  Presentation-only state (animation
timers driven by the wall clock) is outside the embedded core.
-/

namespace ReSnake

/-- Board size, GAME_CONFIG.BOARD_SIZE in src/config/constants.ts. -/
def BOARD_SIZE : Int := 20

/-- Position component (src/components/Position.ts): an integer pair. -/
structure Pos where
  x : Int
  y : Int
deriving DecidableEq, Repr

instance : Inhabited Pos := ⟨⟨0, 0⟩⟩

/-- Velocity component data (src/components/Velocity.ts): a direction vector. -/
structure Vec where
  x : Int
  y : Int
deriving DecidableEq, Repr

/-- Position.equals: componentwise value equality. -/
def Pos.equals (p other : Pos) : Bool :=
  p.x == other.x && p.y == other.y

/-- Position.add: componentwise sum with a vector, returning a new position. -/
def Pos.add (p : Pos) (vector : Vec) : Pos :=
  ⟨p.x + vector.x, p.y + vector.y⟩

/-- Velocity.isOpposite: the proposed direction is the exact negation of the
current velocity. -/
def Vec.isOpposite (v other : Vec) : Bool :=
  v.x == -other.x && v.y == -other.y

/-- Negation of a direction vector (used to state the anti-reversal claims). -/
def Vec.neg (v : Vec) : Vec := ⟨-v.x, -v.y⟩

/-- Direction names produced by the input layer (src/core/types.ts). -/
inductive Direction where
  | UP
  | DOWN
  | LEFT
  | RIGHT
deriving DecidableEq, Repr

/-- DIRECTIONS table from src/config/constants.ts. -/
def DIRECTIONS : Direction → Vec
  | .UP => ⟨0, -1⟩
  | .DOWN => ⟨0, 1⟩
  | .LEFT => ⟨-1, 0⟩
  | .RIGHT => ⟨1, 0⟩

/-- Snake entity (src/entities/Snake.ts): ordered body (head first), the
growth-pending flag shouldGrow, the justGrew presentation flag, and the
Velocity component held in the entity component map (getComponent may in
principle miss, hence Option). -/
structure Snake where
  body : List Pos
  shouldGrow : Bool
  justGrew : Bool
  velocity : Option Vec
deriving DecidableEq, Repr

/-- Snake.head getter: body[0]. -/
def Snake.head (s : Snake) : Pos := s.body.headI

/-- The cell occupied by the snake's tail (last body segment). -/
def Snake.tailCell (s : Snake) : Pos := s.body.getLastD default

/-- Snake.grow: mark that the next movement commit must keep the tail. -/
def Snake.grow (s : Snake) : Snake := { s with shouldGrow := true }

/-- Snake.move: unshift the new head; unless growth is pending, pop the
tail; a pending growth is consumed by the move. -/
def Snake.move (s : Snake) (newHead : Pos) : Snake :=
  if s.shouldGrow then
    { s with body := newHead :: s.body, shouldGrow := false, justGrew := true }
  else
    { s with body := (newHead :: s.body).dropLast, justGrew := false }

/-- Snake.checkSelfCollision: some body segment other than the head itself
equals the head. -/
def Snake.checkSelfCollision (s : Snake) : Bool :=
  (s.body.drop 1).any (fun segment => segment.equals s.head)

/-- Outcome signals fired through the callback fields of the systems. -/
inductive Signal where
  | wallCollision
  | foodEaten
  | superFoodEaten
  | gameOver
deriving DecidableEq, Repr

/-- MovementSystem state (src/systems/MovementSystem.ts, wall-mode variant):
time accumulator, move interval, and the wall-collision mode flag. -/
structure MovementSystem where
  accumulator : Nat
  moveInterval : Nat
  hasWallCollision : Bool
deriving DecidableEq, Repr

/-- MovementSystem.checkWallCollision: the position lies outside the board
on either axis. -/
def checkWallCollision (position : Pos) : Bool :=
  decide (position.x < 0) || decide (position.x ≥ BOARD_SIZE) ||
  decide (position.y < 0) || decide (position.y ≥ BOARD_SIZE)

/-- MovementSystem.wrapPosition: the four sequential edge conditionals. -/
def wrapPosition (position : Pos) : Pos :=
  let x1 := if position.x < 0 then BOARD_SIZE - 1 else position.x
  let x2 := if x1 ≥ BOARD_SIZE then 0 else x1
  let y1 := if position.y < 0 then BOARD_SIZE - 1 else position.y
  let y2 := if y1 ≥ BOARD_SIZE then 0 else y1
  ⟨x2, y2⟩

/-- MovementSystem.moveSnake: one discrete move.  Returns the updated snake,
the signals fired (the wall-collision callback invocations), and the
velocity the committed move used (none when no move was committed). -/
def MovementSystem.moveSnake (m : MovementSystem) (s : Snake) :
    Snake × List Signal × Option Vec :=
  match s.velocity with
  | none => (s, [], none)
  | some velocity =>
    let newHead := s.head.add velocity
    if m.hasWallCollision && checkWallCollision newHead then
      (s, [Signal.wallCollision], none)
    else
      let newHead := if !m.hasWallCollision then wrapPosition newHead else newHead
      (s.move newHead, [], some velocity)

/-- MovementSystem.update: accumulate the frame delta; below the move
interval this is a no-op, otherwise reset the accumulator and perform
exactly one discrete move. -/
def MovementSystem.update (m : MovementSystem) (s : Snake) (deltaTime : Nat) :
    MovementSystem × Snake × List Signal × Option Vec :=
  let acc := m.accumulator + deltaTime
  if acc < m.moveInterval then
    ({ m with accumulator := acc }, s, [], none)
  else
    let r := m.moveSnake s
    ({ m with accumulator := 0 }, r.1, r.2.1, r.2.2)

/-- InputSystem state (pending direction command and the enabled gate). -/
structure InputSystem where
  pendingDirection : Option Direction
  enabled : Bool
deriving DecidableEq, Repr

/-- InputSystem.update: commit the pending direction to the snake's
Velocity component unless it is the opposite of the current velocity. -/
def InputSystem.update (i : InputSystem) (s : Snake) : InputSystem × Snake :=
  if !i.enabled then (i, s)
  else
    match i.pendingDirection with
    | none => (i, s)
    | some pd =>
      match s.velocity with
      | none => (i, s)
      | some velocity =>
        let newDirection := DIRECTIONS pd
        if velocity.isOpposite newDirection then (i, s)
        else ({ i with pendingDirection := none }, { s with velocity := some newDirection })

/-- Food entity (src/entities/Food.ts): a position and the being-eaten flag
set by startEatAnimation. -/
structure Food where
  position : Pos
  beingEaten : Bool
deriving DecidableEq, Repr

/-- Food.startEatAnimation: marks the food as being eaten (the animation
timer itself is presentation-only). -/
def Food.startEatAnimation (f : Food) : Food := { f with beingEaten := true }

/-- SuperFood entity: top-left anchor of its square footprint, its size,
and the being-eaten flag. -/
structure SuperFood where
  position : Pos
  size : Nat
  beingEaten : Bool
deriving DecidableEq, Repr

/-- SuperFood.getCoveredCells: the size-by-size block anchored at position. -/
def SuperFood.getCoveredCells (sf : SuperFood) : List Pos :=
  ((List.range sf.size).map (fun dx =>
    (List.range sf.size).map (fun dy =>
      (⟨sf.position.x + dx, sf.position.y + dy⟩ : Pos)))).flatten

/-- SuperFood.startEatAnimation: marks the superfood as being eaten. -/
def SuperFood.startEatAnimation (sf : SuperFood) : SuperFood :=
  { sf with beingEaten := true }

/-- CollisionSystem.checkFoodCollision: normal-food branch then the
superfood branch, each guarded by the respective being-eaten flag. -/
def checkFoodCollision (s : Snake) (f : Food) (sf : Option SuperFood) :
    Snake × Food × Option SuperFood × List Signal :=
  let head := s.head
  let r1 :=
    if head.equals f.position && !f.beingEaten then
      (s.grow, f.startEatAnimation, [Signal.foodEaten])
    else (s, f, ([] : List Signal))
  match sf with
  | none => (r1.1, r1.2.1, none, r1.2.2)
  | some sup =>
    if !sup.beingEaten && sup.getCoveredCells.any (fun cell => head.equals cell) then
      (r1.1.grow, r1.2.1, some sup.startEatAnimation, r1.2.2 ++ [Signal.superFoodEaten])
    else (r1.1, r1.2.1, some sup, r1.2.2)

/-- CollisionSystem.update: food check, then self-collision, then obstacle
collision, each read on the post-movement state. -/
def CollisionSystem.update (s : Snake) (f : Food) (sf : Option SuperFood)
    (obstacles : List Pos) : Snake × Food × Option SuperFood × List Signal :=
  let r1 := checkFoodCollision s f sf
  let sigsSelf := if r1.1.checkSelfCollision then [Signal.gameOver] else []
  let sigsObs :=
    if obstacles.length == 0 then []
    else if obstacles.any (fun o => r1.1.head.equals o) then [Signal.gameOver]
    else []
  (r1.1, r1.2.1, r1.2.2.1, r1.2.2.2 ++ sigsSelf ++ sigsObs)

/-- Engine states (src/core/types.ts). -/
inductive GameState where
  | IDLE
  | PLAYING
  | PAUSED
  | GAME_OVER
deriving DecidableEq, Repr

/-- GameEngine scheduling state: the state machine value and the pending
animation-frame handle (the host-supplied requestAnimationFrame token). -/
structure GameEngine where
  state : GameState
  animationFrameId : Option Nat
deriving DecidableEq, Repr

/-- GameEngine.start: an early return when already Playing, otherwise the
state becomes Playing and the loop arms a fresh host-supplied handle. -/
def GameEngine.start (e : GameEngine) (newHandle : Nat) : GameEngine :=
  if e.state = GameState.PLAYING then e
  else { e with state := GameState.PLAYING, animationFrameId := some newHandle }

/-- GameEngine.pause: unconditionally enter Paused. -/
def GameEngine.pause (e : GameEngine) : GameEngine :=
  { e with state := GameState.PAUSED }

/-- GameEngine.resume: Paused re-enters Playing and re-arms the loop. -/
def GameEngine.resume (e : GameEngine) (newHandle : Nat) : GameEngine :=
  if e.state = GameState.PAUSED then
    { e with state := GameState.PLAYING, animationFrameId := some newHandle }
  else e

/-- GameEngine.stop: enter GameOver and cancel the pending handle. -/
def GameEngine.stop (e : GameEngine) : GameEngine :=
  { e with state := GameState.GAME_OVER, animationFrameId := none }

/-- World for the per-frame pipeline: the snake shared by the input and
movement systems. -/
structure World where
  snake : Snake
  input : InputSystem
  movement : MovementSystem
deriving DecidableEq, Repr

/-- One scheduled frame: the raw directional intent (if any) lands in the
pending slot (latest wins, gated by enabled), then InputSystem.update runs,
then MovementSystem.update, in registration order.  Returns the new world,
the movement signals, and the velocity used if a move was committed. -/
def World.frame (w : World) (deltaTime : Nat) (rawInput : Option Direction) :
    World × List Signal × Option Vec :=
  let input0 :=
    match rawInput with
    | some d => if w.input.enabled then { w.input with pendingDirection := some d } else w.input
    | none => w.input
  let ri := input0.update w.snake
  let rm := w.movement.update ri.2 deltaTime
  (⟨rm.2.1, ri.1, rm.1⟩, rm.2.2.1, rm.2.2.2)

/-- Run a schedule of frames, recording for each frame the velocity used by
the committed move of that frame, if any. -/
def World.run (w : World) : List (Nat × Option Direction) → List (Option Vec)
  | [] => []
  | (dt, inp) :: rest =>
    let r := w.frame dt inp
    r.2.2 :: r.1.run rest

/-- Every cell of the 20-by-20 board. -/
def allCells : List Pos :=
  ((List.range 20).map (fun (x : Nat) =>
    (List.range 20).map (fun (y : Nat) => (⟨(x : Int), (y : Int)⟩ : Pos)))).flatten

/-- A position whose coordinates a board draw can produce. -/
def inBoard (p : Pos) : Prop :=
  0 ≤ p.x ∧ p.x < BOARD_SIZE ∧ 0 ≤ p.y ∧ p.y < BOARD_SIZE

instance (p : Pos) : Decidable (inBoard p) := by
  unfold inBoard; infer_instance

/-- generateRandomPosition (src/utils/helpers.ts), with the random draws
supplied as a stream and the loop given explicit fuel: each iteration draws
the next stream element and retries while it hits the exclusion set.  The
source loop has no attempt bound, so exhausting the fuel (none) means the
source loop has not returned within that many iterations. -/
def generateRandomPositionFuel (excludePositions : List Pos) (stream : Nat → Pos) :
    Nat → Nat → Option Pos
  | _, 0 => none
  | idx, fuel + 1 =>
    let position := stream idx
    if excludePositions.any (fun p => p.equals position) then
      generateRandomPositionFuel excludePositions stream (idx + 1) fuel
    else some position

/-- The unbounded source loop of generateRandomPosition terminates. -/
def RandomPositionTerminates (excludePositions : List Pos) (stream : Nat → Pos) : Prop :=
  ∃ fuel, (generateRandomPositionFuel excludePositions stream 0 fuel).isSome = true

/-- isAreaColliding (src/utils/helpers.ts): some cell of the width-by-height
area anchored at topLeft is in the exclusion list. -/
def isAreaColliding (topLeft : Pos) (width height : Nat) (excludePositions : List Pos) : Bool :=
  (List.range width).any (fun (dx : Nat) =>
    (List.range height).any (fun (dy : Nat) =>
      excludePositions.any (fun p =>
        p.equals ⟨topLeft.x + (dx : Int), topLeft.y + (dy : Int)⟩)))

/-- generateRandomTopLeftArea, fuel-instrumented like
generateRandomPositionFuel: retries while the drawn anchor's area collides
with the exclusion set; the source loop has no attempt bound. -/
def generateRandomTopLeftAreaFuel (areaWidth areaHeight : Nat)
    (excludePositions : List Pos) (stream : Nat → Pos) : Nat → Nat → Option Pos
  | _, 0 => none
  | idx, fuel + 1 =>
    let position := stream idx
    if isAreaColliding position areaWidth areaHeight excludePositions then
      generateRandomTopLeftAreaFuel areaWidth areaHeight excludePositions stream (idx + 1) fuel
    else some position

/-- manhattanDistance (src/utils/helpers.ts). -/
def manhattanDistance (pos1 pos2 : Pos) : Nat :=
  (pos1.x - pos2.x).natAbs + (pos1.y - pos2.y).natAbs

/-- Loop body of generateSafeObstaclePosition: rem counts the attempts still
allowed out of maxAttempts = 100.  Each iteration draws the next stream
element; once the draw consuming the last allowed attempt is made, the loop
breaks with that draw as the warned fallback, otherwise it retries while the
draw is excluded or too close to a critical position. -/
def safeObstacleGo (excludePositions : List Pos)
    (criticalPositions : List (Pos × Nat)) (stream : Nat → Pos) :
    Nat → Nat → Pos
  | idx, 0 => stream idx
  | idx, 1 => stream idx
  | idx, rem + 2 =>
    let position := stream idx
    if excludePositions.any (fun p => p.equals position) ||
        criticalPositions.any (fun critical =>
          decide (manhattanDistance position critical.1 < critical.2)) then
      safeObstacleGo excludePositions criticalPositions stream (idx + 1) (rem + 1)
    else position

/-- generateSafeObstaclePosition (src/utils/helpers.ts): the retry loop with
its 100-attempt bound and best-effort fallback. -/
def generateSafeObstaclePosition (excludePositions : List Pos)
    (criticalPositions : List (Pos × Nat)) (stream : Nat → Pos) : Pos :=
  safeObstacleGo excludePositions criticalPositions stream 0 100

/-! Helper lemmas. -/

/-- Position.equals decides propositional equality. -/
theorem Pos.equals_iff {p q : Pos} : p.equals q = true ↔ p = q := by
  cases p; cases q; simp [Pos.equals]

/-- Position.equals is reflexive. -/
theorem Pos.equals_self (p : Pos) : p.equals p = true :=
  Pos.equals_iff.mpr rfl

/-- The body of a snake of length at least two splits off its last cell. -/
theorem Snake.tailCell_eq_getLast (s : Snake) (hne : s.body ≠ []) :
    s.tailCell = s.body.getLast hne := by
  unfold Snake.tailCell
  rw [List.getLastD_eq_getLast?, List.getLast?_eq_getLast _ hne]
  rfl

/-! Claim theorems. -/

/-- C2: Snake.move preserves the body length when no growth is pending and
increases it by exactly one when growth is pending, clearing the flag in
both cases; Snake.grow only sets the flag, leaving the body unchanged, so
the increase becomes visible on the following movement commit. -/
theorem move_body_length_step_law (s : Snake) (p : Pos) :
    ((s.move p).body.length =
      if s.shouldGrow then s.body.length + 1 else s.body.length)
    ∧ (s.move p).shouldGrow = false
    ∧ s.grow.shouldGrow = true ∧ s.grow.body = s.body := by
  unfold Snake.move Snake.grow
  cases h : s.shouldGrow <;> simp [h]

/-- C1: for a snake with no growth pending, at least two segments and a
duplicate-free body, a committed move onto the cell its tail occupied
before the move reports no self-collision (the tail is popped on the same
move); and for body [(5,5),(5,6),(5,7)] with no growth pending, a move of
the head onto (5,6) does report a self-collision. -/
theorem tail_vacated_cell_exemption :
    (∀ s : Snake, s.shouldGrow = false → 2 ≤ s.body.length → s.body.Nodup →
      (s.move s.tailCell).checkSelfCollision = false)
    ∧ ((⟨[⟨5, 5⟩, ⟨5, 6⟩, ⟨5, 7⟩], false, false, some ⟨0, 1⟩⟩ : Snake).move
        ⟨5, 6⟩).checkSelfCollision = true := by
  constructor
  · intro s hg hlen hnodup
    have hne : s.body ≠ [] := by
      intro h; rw [h] at hlen; simp at hlen
    have htail : s.tailCell = s.body.getLast hne := s.tailCell_eq_getLast hne
    have hsplit : s.body.dropLast ++ [s.body.getLast hne] = s.body :=
      List.dropLast_append_getLast hne
    have hnotmem : s.body.getLast hne ∉ s.body.dropLast := by
      rw [← hsplit] at hnodup
      have hdisj := (List.nodup_append.mp hnodup).2.2
      intro hmem
      exact hdisj hmem (by simp)
    unfold Snake.move Snake.checkSelfCollision Snake.head
    rw [hg]
    simp only [Bool.false_eq_true, if_false]
    rw [List.dropLast_cons_of_ne_nil hne]
    simp only [List.drop_one, List.tail_cons, List.headI]
    rw [List.any_eq_false]
    intro seg hseg
    simp only [Bool.not_eq_true]
    rw [Bool.eq_false_iff]
    intro heq
    rw [Pos.equals_iff] at heq
    rw [heq, htail] at hseg
    exact hnotmem hseg
  · decide

/-- C1 witness: the general part applied to the concrete snake with body
[(0,0),(0,1)], no growth pending, moving onto its tail cell (0,1). -/
theorem tail_vacated_cell_exemption_witness :
    ((⟨[⟨0, 0⟩, ⟨0, 1⟩], false, false, some ⟨0, 1⟩⟩ : Snake).move
      (⟨[⟨0, 0⟩, ⟨0, 1⟩], false, false, some ⟨0, 1⟩⟩ : Snake).tailCell).checkSelfCollision
      = false :=
  tail_vacated_cell_exemption.1 ⟨[⟨0, 0⟩, ⟨0, 1⟩], false, false, some ⟨0, 1⟩⟩
    rfl (by decide) (by decide)

/-- C6 counterexample: with growth pending, the tail is not popped, so the
movement commit whose new head (6,6) equals the pre-move tail cell makes
checkSelfCollision report a collision, contradicting the claim that it
never fires on such a tick. -/
theorem growth_pending_tail_reoccupy_cex :
    ((⟨[⟨5, 6⟩, ⟨5, 5⟩, ⟨6, 5⟩, ⟨6, 6⟩], true, false, some ⟨1, 0⟩⟩ : Snake).shouldGrow = true)
    ∧ ((⟨[⟨5, 6⟩, ⟨5, 5⟩, ⟨6, 5⟩, ⟨6, 6⟩], true, false, some ⟨1, 0⟩⟩ : Snake).tailCell = ⟨6, 6⟩)
    ∧ (((⟨[⟨5, 6⟩, ⟨5, 5⟩, ⟨6, 5⟩, ⟨6, 6⟩], true, false, some ⟨1, 0⟩⟩ : Snake).move
        ⟨6, 6⟩).checkSelfCollision = true) := by
  decide

/-- C6 amended: for every snake with the growth-pending flag set and a
nonempty body, the movement commit whose new head equals the pre-move tail
cell makes checkSelfCollision report a collision, because the pending
growth keeps the tail so the reoccupied cell is still occupied. -/
theorem growth_pending_tail_reoccupy_fires (s : Snake) (hg : s.shouldGrow = true)
    (hne : s.body ≠ []) :
    (s.move s.tailCell).checkSelfCollision = true := by
  unfold Snake.move Snake.checkSelfCollision Snake.head
  rw [hg]
  simp only [if_true]
  simp only [List.drop_one, List.tail_cons, List.headI]
  refine List.any_eq_true.mpr ⟨s.body.getLast hne, List.getLast_mem hne, ?_⟩
  rw [s.tailCell_eq_getLast hne]
  exact Pos.equals_self _

/-- C6 amended witness: the amended theorem applied to the snake with body
[(0,0),(1,0)], growth pending, moving onto its tail cell (1,0). -/
theorem growth_pending_tail_reoccupy_fires_witness :
    ((⟨[⟨0, 0⟩, ⟨1, 0⟩], true, false, some ⟨1, 0⟩⟩ : Snake).move
      (⟨[⟨0, 0⟩, ⟨1, 0⟩], true, false, some ⟨1, 0⟩⟩ : Snake).tailCell).checkSelfCollision
      = true :=
  growth_pending_tail_reoccupy_fires ⟨[⟨0, 0⟩, ⟨1, 0⟩], true, false, some ⟨1, 0⟩⟩
    rfl (by decide)

/-- Velocity.isOpposite holds exactly when the proposed vector is the
negation of the current one. -/
theorem Vec.isOpposite_iff (v d : Vec) : v.isOpposite d = true ↔ d = v.neg := by
  cases v; cases d
  simp only [Vec.isOpposite, Vec.neg, Vec.mk.injEq, Bool.and_eq_true, beq_iff_eq]
  omega

/-- A nonzero vector differs from its own negation. -/
theorem Vec.neg_ne_self {v : Vec} (h : v ≠ ⟨0, 0⟩) : v.neg ≠ v := by
  cases v
  simp only [Vec.neg, ne_eq, Vec.mk.injEq, not_and] at *
  omega

/-- C3: across one InputSystem.update step with a nonzero current velocity,
the velocity is never set to the exact negation of its previous value; a
pending direction equal to that negation is rejected with the whole state
unchanged, and an enabled step with a non-opposite pending direction
commits it and clears the pending slot. -/
theorem input_update_anti_reversal (i : InputSystem) (s : Snake) (v : Vec)
    (hv : s.velocity = some v) (hnz : v ≠ ⟨0, 0⟩) :
    (∀ v', ((i.update s).2).velocity = some v' → v' ≠ v.neg)
    ∧ (∀ pd, i.pendingDirection = some pd → DIRECTIONS pd = v.neg →
        i.update s = (i, s))
    ∧ (∀ pd, i.pendingDirection = some pd → i.enabled = true →
        DIRECTIONS pd ≠ v.neg →
        ((i.update s).2).velocity = some (DIRECTIONS pd)
        ∧ ((i.update s).1).pendingDirection = none) := by
  have hvneg : v ≠ v.neg := (Vec.neg_ne_self hnz).symm
  refine ⟨?_, ?_, ?_⟩
  · intro v' hv'
    cases he : i.enabled with
    | false =>
      simp [InputSystem.update, he, hv] at hv'
      rw [← hv']
      exact hvneg
    | true =>
      cases hpd : i.pendingDirection with
      | none =>
        simp [InputSystem.update, he, hpd, hv] at hv'
        rw [← hv']
        exact hvneg
      | some pd =>
        cases hop : v.isOpposite (DIRECTIONS pd) with
        | true =>
          simp [InputSystem.update, he, hpd, hv, hop] at hv'
          rw [← hv']
          exact hvneg
        | false =>
          simp [InputSystem.update, he, hpd, hv, hop] at hv'
          rw [← hv']
          intro hcon
          have := (Vec.isOpposite_iff v (DIRECTIONS pd)).mpr hcon
          rw [hop] at this
          cases this
  · intro pd hpd hopp
    have hop : v.isOpposite (DIRECTIONS pd) = true :=
      (Vec.isOpposite_iff v (DIRECTIONS pd)).mpr hopp
    cases he : i.enabled with
    | false => simp [InputSystem.update, he]
    | true => simp [InputSystem.update, he, hpd, hv, hop]
  · intro pd hpd he hnopp
    have hop : v.isOpposite (DIRECTIONS pd) = false := by
      rw [Bool.eq_false_iff]
      intro hcon
      exact hnopp ((Vec.isOpposite_iff v (DIRECTIONS pd)).mp hcon)
    simp [InputSystem.update, he, hpd, hv, hop]

/-- C3 witness: with velocity (1,0), the pending LEFT (its exact negation)
is rejected leaving the state unchanged, and the pending UP is committed
with the pending slot cleared. -/
theorem input_update_anti_reversal_witness :
    (InputSystem.update ⟨some Direction.LEFT, true⟩
      ⟨[⟨10, 10⟩], false, false, some ⟨1, 0⟩⟩
      = (⟨some Direction.LEFT, true⟩, ⟨[⟨10, 10⟩], false, false, some ⟨1, 0⟩⟩))
    ∧ (((InputSystem.update ⟨some Direction.UP, true⟩
        ⟨[⟨10, 10⟩], false, false, some ⟨1, 0⟩⟩).2).velocity
          = some (DIRECTIONS Direction.UP)
      ∧ ((InputSystem.update ⟨some Direction.UP, true⟩
        ⟨[⟨10, 10⟩], false, false, some ⟨1, 0⟩⟩).1).pendingDirection = none) :=
  ⟨(input_update_anti_reversal ⟨some Direction.LEFT, true⟩
      ⟨[⟨10, 10⟩], false, false, some ⟨1, 0⟩⟩ ⟨1, 0⟩ rfl (by decide)).2.1
      Direction.LEFT rfl (by decide),
   (input_update_anti_reversal ⟨some Direction.UP, true⟩
      ⟨[⟨10, 10⟩], false, false, some ⟨1, 0⟩⟩ ⟨1, 0⟩ rfl (by decide)).2.2
      Direction.UP rfl rfl (by decide)⟩

/-- Snake.move installs the new head at index 0 of the body. -/
theorem Snake.move_head (s : Snake) (p : Pos) (hb : s.body ≠ []) :
    (s.move p).head = p := by
  unfold Snake.move Snake.head
  cases hg : s.shouldGrow
  · simp [List.dropLast_cons_of_ne_nil hb]
  · simp

/-- On arguments one step beyond the board, the sequential edge
conditionals of wrapPosition agree with reduction modulo BOARD_SIZE. -/
theorem wrapPosition_eq_mod (p : Pos) (hx : -1 ≤ p.x) (hx2 : p.x ≤ BOARD_SIZE)
    (hy : -1 ≤ p.y) (hy2 : p.y ≤ BOARD_SIZE) :
    wrapPosition p = ⟨p.x % BOARD_SIZE, p.y % BOARD_SIZE⟩ := by
  unfold wrapPosition BOARD_SIZE
  unfold BOARD_SIZE at hx2 hy2
  rw [Pos.mk.injEq]
  constructor <;> split_ifs <;> omega

/-- C4: with wall collision disabled, a committed move from an in-bounds
head with a unit velocity lands on head plus velocity with each coordinate
reduced modulo BOARD_SIZE, hence again in bounds on both axes. -/
theorem wrap_mode_committed_move (s : Snake) (v : Vec) (m : MovementSystem)
    (hv : s.velocity = some v)
    (hunit : v = ⟨0, -1⟩ ∨ v = ⟨0, 1⟩ ∨ v = ⟨-1, 0⟩ ∨ v = ⟨1, 0⟩)
    (hb : s.body ≠ [])
    (hx : 0 ≤ s.head.x ∧ s.head.x < BOARD_SIZE)
    (hy : 0 ≤ s.head.y ∧ s.head.y < BOARD_SIZE)
    (hwall : m.hasWallCollision = false) :
    ((m.moveSnake s).1).head =
      ⟨(s.head.x + v.x) % BOARD_SIZE, (s.head.y + v.y) % BOARD_SIZE⟩
    ∧ 0 ≤ ((m.moveSnake s).1).head.x ∧ ((m.moveSnake s).1).head.x < BOARD_SIZE
    ∧ 0 ≤ ((m.moveSnake s).1).head.y ∧ ((m.moveSnake s).1).head.y < BOARD_SIZE := by
  have hB : BOARD_SIZE = 20 := rfl
  rw [hB] at hx hy
  have hmod : wrapPosition (s.head.add v) =
      ⟨(s.head.x + v.x) % BOARD_SIZE, (s.head.y + v.y) % BOARD_SIZE⟩ := by
    rcases hunit with h | h | h | h <;>
      (subst h
       apply wrapPosition_eq_mod <;> simp [Pos.add, hB] <;> omega)
  have hmain : ((m.moveSnake s).1).head =
      ⟨(s.head.x + v.x) % BOARD_SIZE, (s.head.y + v.y) % BOARD_SIZE⟩ := by
    unfold MovementSystem.moveSnake
    rw [hv]
    simp only [hwall, Bool.false_and, Bool.not_false, if_true]
    simp only [Bool.false_eq_true, if_false]
    rw [Snake.move_head _ _ hb, hmod]
  refine ⟨hmain, ?_⟩
  rw [hmain]
  simp [hB]
  omega

/-- C4 witness: the wrap scenario with body [(19,10)], velocity (1,0) and
wall mode off lands the head on (0,10), in bounds. -/
theorem wrap_mode_committed_move_witness :
    (((⟨0, 200, false⟩ : MovementSystem).moveSnake
      ⟨[⟨19, 10⟩], false, false, some ⟨1, 0⟩⟩).1).head = ⟨0, 10⟩ :=
  ((wrap_mode_committed_move ⟨[⟨19, 10⟩], false, false, some ⟨1, 0⟩⟩ ⟨1, 0⟩
      ⟨0, 200, false⟩ rfl (by decide) (by decide) (by decide) (by decide) rfl).1).trans
    (by decide)

/-- C5: with wall collision enabled, a tick whose candidate head leaves the
board on either axis fires exactly one wall-collision signal and leaves the
snake (body and head included) completely unchanged, while an in-bounds
candidate fires no signal and commits the move. -/
theorem wall_mode_atomicity (s : Snake) (v : Vec) (m : MovementSystem)
    (hv : s.velocity = some v) (hwall : m.hasWallCollision = true) :
    ((¬ (0 ≤ s.head.x + v.x ∧ s.head.x + v.x < BOARD_SIZE ∧
         0 ≤ s.head.y + v.y ∧ s.head.y + v.y < BOARD_SIZE)) →
      m.moveSnake s = (s, [Signal.wallCollision], none))
    ∧ ((0 ≤ s.head.x + v.x ∧ s.head.x + v.x < BOARD_SIZE ∧
        0 ≤ s.head.y + v.y ∧ s.head.y + v.y < BOARD_SIZE) →
      m.moveSnake s = (s.move (s.head.add v), [], some v)) := by
  constructor
  · intro hout
    have hc : checkWallCollision (s.head.add v) = true := by
      unfold checkWallCollision Pos.add
      simp only [Bool.or_eq_true, decide_eq_true_eq]
      by_contra hcon
      push_neg at hcon
      exact hout ⟨by omega, by omega, by omega, by omega⟩
    unfold MovementSystem.moveSnake
    rw [hv]
    simp only [hwall, Bool.true_and, hc, if_true]
  · intro hin
    have hc : checkWallCollision (s.head.add v) = false := by
      unfold checkWallCollision Pos.add
      simp only [Bool.or_eq_false_iff, decide_eq_false_iff_not]
      refine ⟨⟨⟨?_, ?_⟩, ?_⟩, ?_⟩ <;> omega
    unfold MovementSystem.moveSnake
    rw [hv]
    simp only [hwall, Bool.true_and, hc, Bool.false_eq_true, if_false,
      Bool.not_true, if_true]

/-- C5 witness: with body [(19,10)] and velocity (1,0) the candidate (20,10)
is out of bounds, so wall mode fires one wall-collision signal and leaves
the snake unchanged; with velocity (0,1) the candidate (19,11) is in bounds
and the move is committed with no signal. -/
theorem wall_mode_atomicity_witness :
    ((⟨0, 200, true⟩ : MovementSystem).moveSnake
        ⟨[⟨19, 10⟩], false, false, some ⟨1, 0⟩⟩
      = (⟨[⟨19, 10⟩], false, false, some ⟨1, 0⟩⟩, [Signal.wallCollision], none))
    ∧ ((⟨0, 200, true⟩ : MovementSystem).moveSnake
        ⟨[⟨19, 10⟩], false, false, some ⟨0, 1⟩⟩
      = ((⟨[⟨19, 10⟩], false, false, some ⟨0, 1⟩⟩ : Snake).move
          ((⟨[⟨19, 10⟩], false, false, some ⟨0, 1⟩⟩ : Snake).head.add ⟨0, 1⟩),
         [], some ⟨0, 1⟩)) :=
  ⟨(wall_mode_atomicity ⟨[⟨19, 10⟩], false, false, some ⟨1, 0⟩⟩ ⟨1, 0⟩
      ⟨0, 200, true⟩ rfl rfl).1 (by decide),
   (wall_mode_atomicity ⟨[⟨19, 10⟩], false, false, some ⟨0, 1⟩⟩ ⟨0, 1⟩
      ⟨0, 200, true⟩ rfl rfl).2 (by decide)⟩

/-- C7 counterexample: when the food is already being consumed, a collision
run with the head exactly on the food's position sets no growth flag and
fires no food-eaten signal, contradicting the unconditional claim. -/
theorem food_collision_being_eaten_cex :
    ((⟨[⟨11, 10⟩], false, false, some ⟨1, 0⟩⟩ : Snake).head.equals
      (⟨⟨11, 10⟩, true⟩ : Food).position = true)
    ∧ ((CollisionSystem.update ⟨[⟨11, 10⟩], false, false, some ⟨1, 0⟩⟩
        ⟨⟨11, 10⟩, true⟩ none []).1).shouldGrow = false
    ∧ (CollisionSystem.update ⟨[⟨11, 10⟩], false, false, some ⟨1, 0⟩⟩
        ⟨⟨11, 10⟩, true⟩ none []).2.2.2 = [] := by
  decide

/-- C7 amended: whenever the collision system runs with the head exactly on
the food's position and the food not already being consumed, the food is
marked being-consumed, the snake's growth-pending flag is set, a food-eaten
signal fires, the body is unchanged on that tick, and the next committed
move lengthens the body by exactly one. -/
theorem food_collision_outcome (s : Snake) (f : Food) (sf : Option SuperFood)
    (obstacles : List Pos) (hpos : s.head = f.position) (hbe : f.beingEaten = false) :
    ((CollisionSystem.update s f sf obstacles).2.1).beingEaten = true
    ∧ ((CollisionSystem.update s f sf obstacles).1).shouldGrow = true
    ∧ Signal.foodEaten ∈ (CollisionSystem.update s f sf obstacles).2.2.2
    ∧ ((CollisionSystem.update s f sf obstacles).1).body = s.body
    ∧ ∀ p : Pos,
        (((CollisionSystem.update s f sf obstacles).1).move p).body.length
          = s.body.length + 1 := by
  have hpeq : s.head.equals f.position = true := Pos.equals_iff.mpr hpos
  unfold CollisionSystem.update checkFoodCollision
  cases sf with
  | none =>
    simp [hpeq, hbe, Food.startEatAnimation, Snake.grow, Snake.move]
  | some sup =>
    cases hsup : (!sup.beingEaten &&
        sup.getCoveredCells.any fun cell => s.head.equals cell) with
    | false =>
      simp [hpeq, hbe, hsup, Food.startEatAnimation, Snake.grow, Snake.move]
    | true =>
      simp [hpeq, hbe, hsup, Food.startEatAnimation, Snake.grow, Snake.move]

/-- C7 amended witness: the amended theorem at the concrete scenario of the
spec, food at (11,10) not being consumed and the head on it: the flag and
signal fire, the body is unchanged, and the next move adds one segment. -/
theorem food_collision_outcome_witness :
    ((CollisionSystem.update ⟨[⟨11, 10⟩], false, false, some ⟨1, 0⟩⟩
        ⟨⟨11, 10⟩, false⟩ none []).2.1).beingEaten = true
    ∧ ((CollisionSystem.update ⟨[⟨11, 10⟩], false, false, some ⟨1, 0⟩⟩
        ⟨⟨11, 10⟩, false⟩ none []).1).shouldGrow = true
    ∧ Signal.foodEaten ∈ (CollisionSystem.update ⟨[⟨11, 10⟩], false, false, some ⟨1, 0⟩⟩
        ⟨⟨11, 10⟩, false⟩ none []).2.2.2
    ∧ ((CollisionSystem.update ⟨[⟨11, 10⟩], false, false, some ⟨1, 0⟩⟩
        ⟨⟨11, 10⟩, false⟩ none []).1).body = [⟨11, 10⟩]
    ∧ ∀ p : Pos,
        (((CollisionSystem.update ⟨[⟨11, 10⟩], false, false, some ⟨1, 0⟩⟩
          ⟨⟨11, 10⟩, false⟩ none []).1).move p).body.length = 1 + 1 :=
  food_collision_outcome ⟨[⟨11, 10⟩], false, false, some ⟨1, 0⟩⟩
    ⟨⟨11, 10⟩, false⟩ none [] rfl rfl

/-- C8 counterexample: start() called on a Paused engine transitions it to
Playing, although Paused is neither Idle nor GameOver, contradicting the
claim that start moves to Playing only from Idle or GameOver. -/
theorem engine_start_from_paused_cex :
    ((⟨GameState.PAUSED, none⟩ : GameEngine).start 7).state = GameState.PLAYING
    ∧ GameState.PAUSED ≠ GameState.IDLE
    ∧ GameState.PAUSED ≠ GameState.GAME_OVER
    ∧ GameState.PAUSED ≠ GameState.PLAYING := by
  decide

/-- C8 amended: start() moves any non-Playing state (Idle, Paused or
GameOver) to Playing, and calling start() while already Playing is a
complete no-op, leaving the state and the schedule handle unchanged, so at
most one live schedule handle exists at a time. -/
theorem engine_start_transitions (e : GameEngine) (h : Nat) :
    (e.state = GameState.PLAYING → e.start h = e)
    ∧ (e.state ≠ GameState.PLAYING → (e.start h).state = GameState.PLAYING) := by
  constructor
  · intro hp
    unfold GameEngine.start
    simp [hp]
  · intro hp
    unfold GameEngine.start
    simp [hp]

/-- C8 amended witness: start() on a Playing engine with a live handle is
the identity, and start() on an Idle engine reaches Playing. -/
theorem engine_start_transitions_witness :
    ((⟨GameState.PLAYING, some 3⟩ : GameEngine).start 9 = ⟨GameState.PLAYING, some 3⟩)
    ∧ ((⟨GameState.IDLE, none⟩ : GameEngine).start 5).state = GameState.PLAYING :=
  ⟨(engine_start_transitions ⟨GameState.PLAYING, some 3⟩ 9).1 rfl,
   (engine_start_transitions ⟨GameState.IDLE, none⟩ 5).2 (by decide)⟩

/-- C10: input commits happen on every scheduled frame while moves happen
only when the accumulator reaches the interval: starting with velocity
(1,0), committing UP then LEFT on two sub-interval frames (each commit
individually non-opposite) makes the next movement tick use velocity
(-1,0), the exact negation of the (1,0) used by the previous movement
tick. -/
theorem effective_reversal_across_move_ticks :
    World.run ⟨⟨[⟨10, 10⟩], false, false, some ⟨1, 0⟩⟩, ⟨none, true⟩, ⟨0, 200, false⟩⟩
        [(200, none), (100, some Direction.UP), (100, some Direction.LEFT)]
      = [some ⟨1, 0⟩, none, some ⟨-1, 0⟩]
    ∧ (⟨-1, 0⟩ : Vec) = Vec.neg ⟨1, 0⟩
    ∧ Vec.isOpposite ⟨1, 0⟩ (DIRECTIONS Direction.UP) = false
    ∧ Vec.isOpposite ⟨0, -1⟩ (DIRECTIONS Direction.LEFT) = false := by
  refine ⟨?_, rfl, rfl, rfl⟩
  rfl

/-- Every position with both coordinates in the board range is listed in
allCells. -/
theorem mem_allCells (p : Pos) (hx : 0 ≤ p.x) (hx2 : p.x < 20)
    (hy : 0 ≤ p.y) (hy2 : p.y < 20) : p ∈ allCells := by
  cases p with
  | mk px py =>
    simp only at hx hx2 hy hy2
    unfold allCells
    simp only [List.mem_flatten, List.mem_map, List.mem_range]
    refine ⟨(List.range 20).map (fun (y : Nat) => (⟨px, (y : Int)⟩ : Pos)),
      ⟨px.toNat, by omega, ?_⟩, ?_⟩
    · rw [Int.toNat_of_nonneg hx]
    · simp only [List.mem_map, List.mem_range]
      refine ⟨py.toNat, by omega, ?_⟩
      rw [Int.toNat_of_nonneg hy]

/-- The exclusion test of the placement loops fires on every in-board
candidate once the exclusion set is all of allCells. -/
theorem allCells_any_equals (p : Pos) (h : inBoard p) :
    allCells.any (fun q => q.equals p) = true := by
  obtain ⟨h1, h2, h3, h4⟩ := h
  exact List.any_eq_true.mpr ⟨p, mem_allCells p h1 h2 h3 h4, Pos.equals_self p⟩

/-- The origin cell lies on the board. -/
theorem inBoard_origin : inBoard ⟨0, 0⟩ := by
  decide

/-- The origin is a valid anchor for a 2-by-2 area on the board. -/
theorem anchor_origin : 0 ≤ (⟨0, 0⟩ : Pos).x ∧ (⟨0, 0⟩ : Pos).x ≤ 18
    ∧ 0 ≤ (⟨0, 0⟩ : Pos).y ∧ (⟨0, 0⟩ : Pos).y ≤ 18 := by
  decide

/-- With the exclusion set covering the whole board, generateRandomPosition
never returns, for any in-board random stream and any iteration budget. -/
theorem generateRandomPositionFuel_allCells_none (stream : Nat → Pos)
    (hs : ∀ n, inBoard (stream n)) :
    ∀ fuel idx, generateRandomPositionFuel allCells stream idx fuel = none := by
  intro fuel
  induction fuel with
  | zero => intro idx; rfl
  | succ n ih =>
    intro idx
    show (if allCells.any (fun p => p.equals (stream idx)) = true then
        generateRandomPositionFuel allCells stream (idx + 1) n
      else some (stream idx)) = none
    rw [allCells_any_equals (stream idx) (hs idx)]
    simpa using ih (idx + 1)

/-- A 2-by-2 area anchored inside the board always collides with the
all-cells exclusion set. -/
theorem isAreaColliding_allCells (p : Pos) (hx : 0 ≤ p.x) (hx2 : p.x ≤ 18)
    (hy : 0 ≤ p.y) (hy2 : p.y ≤ 18) :
    isAreaColliding p 2 2 allCells = true := by
  unfold isAreaColliding
  refine List.any_eq_true.mpr ⟨0, by simp, ?_⟩
  refine List.any_eq_true.mpr ⟨0, by simp, ?_⟩
  refine allCells_any_equals ⟨p.x + (0 : Nat), p.y + (0 : Nat)⟩ ?_
  unfold inBoard BOARD_SIZE
  simp only []
  push_cast
  omega

/-- With the exclusion set covering the whole board, the 2-by-2 variant
generateRandomTopLeftArea never returns either, for any stream of anchors
that fit the area on the board. -/
theorem generateRandomTopLeftAreaFuel_allCells_none (stream : Nat → Pos)
    (hs : ∀ n, 0 ≤ (stream n).x ∧ (stream n).x ≤ 18
      ∧ 0 ≤ (stream n).y ∧ (stream n).y ≤ 18) :
    ∀ fuel idx, generateRandomTopLeftAreaFuel 2 2 allCells stream idx fuel = none := by
  intro fuel
  induction fuel with
  | zero => intro idx; rfl
  | succ n ih =>
    intro idx
    show (if isAreaColliding (stream idx) 2 2 allCells = true then
        generateRandomTopLeftAreaFuel 2 2 allCells stream (idx + 1) n
      else some (stream idx)) = none
    obtain ⟨h1, h2, h3, h4⟩ := hs idx
    rw [isAreaColliding_allCells (stream idx) h1 h2 h3 h4]
    simpa using ih (idx + 1)

/-- The bounded loop of generateSafeObstaclePosition returns one of its
first draws, within the remaining attempt budget. -/
theorem safeObstacleGo_bounded (excl : List Pos) (crit : List (Pos × Nat))
    (stream : Nat → Pos) :
    ∀ rem idx, 1 ≤ rem → ∃ k, idx ≤ k ∧ k < idx + rem
      ∧ safeObstacleGo excl crit stream idx rem = stream k := by
  intro rem
  induction rem with
  | zero => intro idx hcon; exact absurd hcon (by omega)
  | succ n ih =>
    intro idx _
    cases n with
    | zero => exact ⟨idx, le_refl _, by omega, rfl⟩
    | succ m =>
      cases hcol : (excl.any (fun p => p.equals (stream idx)) ||
          crit.any (fun critical =>
            decide (manhattanDistance (stream idx) critical.1 < critical.2))) with
      | true =>
        obtain ⟨k, hk1, hk2, hk3⟩ := ih (idx + 1) (by omega)
        refine ⟨k, by omega, by omega, ?_⟩
        show (if (excl.any (fun p => p.equals (stream idx)) ||
            crit.any (fun critical =>
              decide (manhattanDistance (stream idx) critical.1 < critical.2))) = true then
            safeObstacleGo excl crit stream (idx + 1) (m + 1)
          else stream idx) = stream k
        rw [hcol]
        simpa using hk3
      | false =>
        refine ⟨idx, le_refl _, by omega, ?_⟩
        show (if (excl.any (fun p => p.equals (stream idx)) ||
            crit.any (fun critical =>
              decide (manhattanDistance (stream idx) critical.1 < critical.2))) = true then
            safeObstacleGo excl crit stream (idx + 1) (m + 1)
          else stream idx) = stream idx
        rw [hcol]
        simp

/-- C9 counterexample: with an exclusion set covering every board cell the
generateRandomPosition loop never terminates, however much fuel it is
given, refuting the claim that it returns a best-effort position after a
bounded number of attempts. -/
theorem random_position_nontermination_cex :
    ¬ RandomPositionTerminates allCells (fun _ => ⟨0, 0⟩) := by
  intro hcon
  obtain ⟨fuel, hfuel⟩ := hcon
  rw [generateRandomPositionFuel_allCells_none (fun _ => ⟨0, 0⟩)
    (fun _ => inBoard_origin) fuel 0] at hfuel
  cases hfuel

/-- C9 amended: generateRandomPosition and generateRandomTopLeftArea have
no attempt bound and loop forever once the exclusion set covers all their
candidate cells; the bounded-retry fallback lives only in
generateSafeObstaclePosition, which always returns one of its first 100
draws (the 100th being the warned, possibly colliding fallback). -/
theorem placement_retry_behavior :
    (∀ stream : Nat → Pos, (∀ n, inBoard (stream n)) →
      ∀ fuel idx, generateRandomPositionFuel allCells stream idx fuel = none)
    ∧ (∀ stream : Nat → Pos,
        (∀ n, 0 ≤ (stream n).x ∧ (stream n).x ≤ 18
          ∧ 0 ≤ (stream n).y ∧ (stream n).y ≤ 18) →
        ∀ fuel idx, generateRandomTopLeftAreaFuel 2 2 allCells stream idx fuel = none)
    ∧ (∀ (excl : List Pos) (crit : List (Pos × Nat)) (stream : Nat → Pos),
        ∃ k, k < 100 ∧ generateSafeObstaclePosition excl crit stream = stream k) := by
  refine ⟨generateRandomPositionFuel_allCells_none,
    generateRandomTopLeftAreaFuel_allCells_none, ?_⟩
  intro excl crit stream
  obtain ⟨k, _, hk2, hk3⟩ := safeObstacleGo_bounded excl crit stream 100 0 (by omega)
  exact ⟨k, by omega, hk3⟩

/-- C9 amended witness: with the constant draw (0,0) and the full-board
exclusion set both unbounded generators are still running after five
iterations, while generateSafeObstaclePosition returns one of its first
100 draws even with empty exclusions. -/
theorem placement_retry_behavior_witness :
    generateRandomPositionFuel allCells (fun _ => ⟨0, 0⟩) 0 5 = none
    ∧ generateRandomTopLeftAreaFuel 2 2 allCells (fun _ => ⟨0, 0⟩) 0 5 = none
    ∧ ∃ k, k < 100 ∧ generateSafeObstaclePosition [] [] (fun _ => ⟨0, 0⟩)
        = (fun _ => (⟨0, 0⟩ : Pos)) k :=
  ⟨placement_retry_behavior.1 (fun _ => ⟨0, 0⟩) (fun _ => inBoard_origin) 5 0,
   placement_retry_behavior.2.1 (fun _ => ⟨0, 0⟩) (fun _ => anchor_origin) 5 0,
   placement_retry_behavior.2.2 [] [] (fun _ => ⟨0, 0⟩)⟩

end ReSnake
